import Mathlib

/-!
Shallow embedding of `src/TransportNSW/TransportNSW.py`.

Modelling conventions:
* Timestamps are integers (whole seconds since an arbitrary epoch); the
  wall clock `datetime.utcnow()` / `datetime.now(timezone.utc)` is passed in
  as an explicit `now : Int` parameter at whole-second resolution.
* A Python `timedelta` value `d` has `d.seconds = d mod 86400` (the
  seconds-within-a-day component, always in `[0, 86400)`, whole days
  discarded); `Int.emod` has exactly this behaviour for a positive modulus.
* Python `round` on `s / 60` (with `0 ≤ s < 86400` whole seconds) is
  round-half-to-even; `s / 60` is a multiple of `1/60`, far enough from any
  half-integer it does not equal, so the float computation agrees exactly
  with `roundHalfEvenDiv60` below.
* Python exceptions are modelled with `Except PyErr`; the raw wire strings
  of timestamp fields are abstracted to `TimeField` (either a string that
  parses to time `t`, or a string rejected by the wire-format parser).
* `requests.get` and the JSON decoding are abstracted to an `HttpOutcome`
  holding the decoded body; the outbound URL/parameter construction has no
  claim about it and is not modelled.
* Python `dict` values of mixed type (`'n/a'`, ints, bools, `None`) are
  modelled by `PyVal`.
-/

/-- Python exception kinds that can escape the two public operations. -/
inductive PyErr where
  | valueError
  | typeError
  | keyError
  | nameError
  | indexError
deriving DecidableEq, Repr

/-- A Python value stored in the result dict: string, int, bool or None. -/
inductive PyVal where
  | vStr (s : String)
  | vInt (n : Int)
  | vBool (b : Bool)
  | vNone
deriving DecidableEq, Repr

/-- The seven-field result dict built by both operations. -/
structure Info where
  stop_id : PyVal
  route : PyVal
  due : PyVal
  delay : PyVal
  real_time : PyVal
  destination : PyVal
  mode : PyVal
deriving DecidableEq, Repr

/-- The default return value: every field set to the string sentinel. -/
def sentinelInfo : Info :=
  { stop_id := .vStr "n/a", route := .vStr "n/a", due := .vStr "n/a",
    delay := .vStr "n/a", real_time := .vStr "n/a",
    destination := .vStr "n/a", mode := .vStr "n/a" }

/-- A timestamp wire string: either one parsing to time `t` (seconds), or
one the fixed wire-format parser rejects. -/
inductive TimeField where
  | valid (t : Int)
  | malformed
deriving DecidableEq, Repr

/-- datetime.strptime with the fixed departure format: raises ValueError on
a malformed string. -/
def strptime : TimeField → Except PyErr Int
  | .valid t => .ok t
  | .malformed => .error .valueError

/-- datetime.fromisoformat applied to the result of an `or` chain of
`dict.get` calls: TypeError on None, ValueError on a malformed string. -/
def pyFromisoformat : Option TimeField → Except PyErr Int
  | none => .error .typeError
  | some .malformed => .error .valueError
  | some (.valid t) => .ok t

/-- One element of the `stopEvents` array, restricted to the keys the code
reads. `departureTimeEstimated` is optional (reading an absent key raises
KeyError); `isRealtimeControlled` records whether that key is present. -/
structure StopEvent where
  number : String
  destinationName : String
  productClass : Int
  isRealtimeControlled : Bool
  departureTimePlanned : TimeField
  departureTimeEstimated : Option TimeField
deriving DecidableEq, Repr

/-- Decoded departure-monitor body: the `stopEvents` key may be absent. -/
structure DepBody where
  stopEvents : Option (List StopEvent)
deriving DecidableEq, Repr

/-- One leg of a journey, restricted to the keys the code reads
(`origin` time fields, `isRealtimeControlled`, `transportation.name`,
`transportation.product.class`). -/
structure TripLeg where
  originDepartureTimeEstimated : Option TimeField
  originDepartureTimePlanned : Option TimeField
  originArrivalTimeEstimated : Option TimeField
  originArrivalTimePlanned : Option TimeField
  isRealtimeControlled : Option Bool
  transportationName : String
  productClass : Int
deriving DecidableEq, Repr

/-- One element of the `journeys` array. -/
structure Journey where
  legs : List TripLeg
deriving DecidableEq, Repr

/-- Decoded trip body: the `journeys` key may be absent. -/
structure TripBody where
  journeys : Option (List Journey)
deriving DecidableEq, Repr

/-- Outcome of `requests.get`: a transport-level failure (any exception
from the network call) or a response with a status code and decoded body. -/
inductive HttpOutcome (B : Type) where
  | transportError
  | response (status : Nat) (body : B)
deriving DecidableEq, Repr

/-- The fixed mode table `modes.get(iconId, None)` (both copies of
`get_mode` in the class are identical; the second shadows the first). -/
def get_mode (iconId : Int) : Option String :=
  if iconId = 1 then some "Train"
  else if iconId = 4 then some "Lightrail"
  else if iconId = 5 then some "Bus"
  else if iconId = 7 then some "Coach"
  else if iconId = 9 then some "Ferry"
  else if iconId = 11 then some "Schoolbus"
  else none

/-- Python `round(s / 60)` for a whole number of seconds `s ≥ 0`:
floor quotient, bumped when the remainder exceeds 30, and at the exact
half (remainder 30) rounded to the even quotient. -/
def roundHalfEvenDiv60 (s : Int) : Int :=
  if s % 60 < 30 then s / 60
  else if 30 < s % 60 then s / 60 + 1
  else if (s / 60) % 2 = 0 then s / 60 else s / 60 + 1

/-- `get_due`: `round((estimated - utcnow()).seconds / 60)`. -/
def get_due (now estimated : Int) : Int :=
  roundHalfEvenDiv60 ((estimated - now) % 86400)

/-- `get_delay`: signed rounded minutes between planned and estimated,
each branch taking the timedelta's seconds component. -/
def get_delay (planned estimated : Int) : Int :=
  if planned ≤ estimated then roundHalfEvenDiv60 ((estimated - planned) % 86400)
  else -(roundHalfEvenDiv60 ((planned - estimated) % 86400))

/-- The list `parseEvent` returns for a usable (future) event, as named
fields instead of positional indices 0..7. -/
structure ParsedEvent where
  number : String
  due : Int
  delay : Int
  planned : Int
  estimated : Int
  real_time : String
  destinationName : String
  mode : Option String
deriving DecidableEq, Repr

/-- `parseEvent(result, i)`: parse the planned time (ValueError may
escape), read the estimated time only when `isRealtimeControlled` is
present (KeyError if `departureTimeEstimated` is then absent), and return
the event data only when the estimated time is strictly in the future. -/
def parseEvent (now : Int) (ev : StopEvent) : Except PyErr (Option ParsedEvent) :=
  match strptime ev.departureTimePlanned with
  | .error e => .error e
  | .ok planned =>
    let mode := get_mode ev.productClass
    let rtEst : Except PyErr (String × Int) :=
      if ev.isRealtimeControlled then
        match ev.departureTimeEstimated with
        | none => .error .keyError
        | some tf =>
          match strptime tf with
          | .error e => .error e
          | .ok es => .ok ("y", es)
      else .ok ("n", planned)
    match rtEst with
    | .error e => .error e
    | .ok (rt, estimated) =>
      if now < estimated then
        .ok (some { number := ev.number, due := get_due now estimated,
                    delay := get_delay planned estimated, planned := planned,
                    estimated := estimated, real_time := rt,
                    destinationName := ev.destinationName, mode := mode })
      else .ok none

/-- The filtered scan shared by the destination and route branches of
`get_departures` with `maxresults = 1`: events failing the predicate are
skipped without being parsed; a matching event is parsed (exceptions
propagate); a parsed past event is skipped and the scan continues; the
first parsed future event stops the scan. -/
def scanEvents (pred : StopEvent → Bool) (now : Int) :
    List StopEvent → Except PyErr (Option ParsedEvent)
  | [] => .ok none
  | ev :: rest =>
    if pred ev then
      match parseEvent now ev with
      | .error e => .error e
      | .ok (some p) => .ok (some p)
      | .ok none => scanEvents pred now rest
    else scanEvents pred now rest

/-- Map a Python value that is either a string or None into `PyVal`. -/
def pyValOfMode : Option String → PyVal
  | some s => .vStr s
  | none => .vNone

/-- The result dict built from `monitor[0]` in `get_departures`. -/
def infoOfParsed (stop_id : String) (p : ParsedEvent) : Info :=
  { stop_id := .vStr stop_id, route := .vStr p.number, due := .vInt p.due,
    delay := .vInt p.delay, real_time := .vStr p.real_time,
    destination := .vStr p.destinationName, mode := pyValOfMode p.mode }

/-- `get_departures(stop_id, route=None, destination=None)`: sentinel on
transport error, non-200 status or missing `stopEvents`; the guard
`destination != ''` is True for both None and any non-empty string, so the
destination branch runs unless destination is exactly `''`; the route
branch likewise requires `route != ''`; the final branch calls the bare
name `parseEvent`, which is unbound at module level (NameError). -/
def get_departures (stop_id : String) (route destination : Option String)
    (now : Int) (http : HttpOutcome DepBody) : Except PyErr Info :=
  match http with
  | .transportError => .ok sentinelInfo
  | .response status body =>
    if status ≠ 200 then .ok sentinelInfo
    else
      match body.stopEvents with
      | none => .ok sentinelInfo
      | some events =>
        if destination ≠ some "" then
          match scanEvents (fun e => destination == some e.destinationName) now events with
          | .error e => .error e
          | .ok (some p) => .ok (infoOfParsed stop_id p)
          | .ok none => .ok sentinelInfo
        else if route ≠ some "" then
          match scanEvents (fun e => route == some e.number) now events with
          | .error e => .error e
          | .ok (some p) => .ok (infoOfParsed stop_id p)
          | .ok none => .ok sentinelInfo
        else .error .nameError

/-- Line 277 of the source: `round((time_estimated - time_now).seconds / 60)`. -/
def trip_due (now estimated : Int) : Int :=
  roundHalfEvenDiv60 ((estimated - now) % 86400)

/-- Line 278 of the source: `round((time_estimated - time_planned).seconds / 60)`
with no sign handling: an estimated time earlier than planned wraps through
the timedelta's seconds-within-a-day component. -/
def trip_delay (planned estimated : Int) : Int :=
  roundHalfEvenDiv60 ((estimated - planned) % 86400)

/-- `",".join(set([get_mode(class) for leg in legs]))`: building the set
cannot fail; joining raises TypeError as soon as the set holds a non-string
(i.e. when any leg's mode code is outside the table). Python's set
iteration order is unspecified; the model fixes one deduplicated order,
which no claim depends on (single-mode journeys are unaffected). -/
def joinTripModes (legs : List TripLeg) : Except PyErr String :=
  let ms := legs.map (fun l => get_mode l.productClass)
  if none ∈ ms then .error .typeError
  else .ok (String.intercalate "," (ms.filterMap id).dedup)

/-- `get_trip(origin_stop_id, destination_stop_id)`: sentinel on transport
error, non-200 status, missing `journeys` key or empty journeys list; the
first journey's first leg supplies the times (IndexError on empty legs),
the estimated time is the first present field of the four-way `or` chain,
and the realtime field is overwritten only when `isRealtimeControlled` is
present. Parse failures and the mode join's TypeError propagate. -/
def get_trip (origin_stop_id destination_stop_id : String)
    (now : Int) (http : HttpOutcome TripBody) : Except PyErr Info :=
  match http with
  | .transportError => .ok sentinelInfo
  | .response status body =>
    if status ≠ 200 then .ok sentinelInfo
    else
      match body.journeys with
      | none => .ok sentinelInfo
      | some [] => .ok sentinelInfo
      | some (j :: _) =>
        match j.legs with
        | [] => .error .indexError
        | leg0 :: _ =>
          match pyFromisoformat (leg0.originDepartureTimeEstimated <|>
              leg0.originDepartureTimePlanned <|>
              leg0.originArrivalTimeEstimated <|>
              leg0.originArrivalTimePlanned) with
          | .error e => .error e
          | .ok time_estimated =>
            match pyFromisoformat (leg0.originDepartureTimePlanned <|>
                leg0.originArrivalTimePlanned) with
            | .error e => .error e
            | .ok time_planned =>
              match joinTripModes j.legs with
              | .error e => .error e
              | .ok modeStr =>
                .ok { stop_id := .vStr origin_stop_id,
                      route := .vStr (String.intercalate ","
                        (j.legs.map TripLeg.transportationName)),
                      due := .vInt (trip_due now time_estimated),
                      delay := .vInt (trip_delay time_planned time_estimated),
                      real_time := match leg0.isRealtimeControlled with
                        | some b => .vBool b
                        | none => .vStr "n/a",
                      destination := .vStr destination_stop_id,
                      mode := .vStr modeStr }

/-- The planned/estimated times an event carries on the wire: the planned
field parses to `pl`, and the estimated time is `es` (read from
`departureTimeEstimated` when realtime data is present, else equal to
`pl`). -/
def EventTimes (ev : StopEvent) (pl es : Int) : Prop :=
  ev.departureTimePlanned = .valid pl ∧
  (if ev.isRealtimeControlled then ev.departureTimeEstimated = some (.valid es)
   else es = pl)

lemma parseEvent_ok_some (now pl es : Int) (ev : StopEvent)
    (h : EventTimes ev pl es) (hfut : now < es) :
    parseEvent now ev = .ok (some
      { number := ev.number, due := get_due now es, delay := get_delay pl es,
        planned := pl, estimated := es,
        real_time := if ev.isRealtimeControlled then "y" else "n",
        destinationName := ev.destinationName,
        mode := get_mode ev.productClass }) := by
  obtain ⟨hpl, hes⟩ := h
  cases hrt : ev.isRealtimeControlled with
  | false =>
    rw [hrt] at hes
    simp only [if_false, Bool.false_eq_true] at hes
    subst hes
    simp [parseEvent, hpl, strptime, hrt, hfut]
  | true =>
    rw [hrt] at hes
    simp only [if_true] at hes
    simp [parseEvent, hpl, strptime, hrt, hes, hfut]

lemma parseEvent_ok_none (now pl es : Int) (ev : StopEvent)
    (h : EventTimes ev pl es) (hpast : es ≤ now) :
    parseEvent now ev = .ok none := by
  obtain ⟨hpl, hes⟩ := h
  cases hrt : ev.isRealtimeControlled with
  | false =>
    rw [hrt] at hes
    simp only [if_false, Bool.false_eq_true] at hes
    subst hes
    simp [parseEvent, hpl, strptime, hrt, not_lt.mpr hpast]
  | true =>
    rw [hrt] at hes
    simp only [if_true] at hes
    simp [parseEvent, hpl, strptime, hrt, hes, not_lt.mpr hpast]

lemma scanEvents_skip (pred : StopEvent → Bool) (now : Int)
    (pre rest : List StopEvent)
    (hpre : ∀ e ∈ pre, pred e = true → parseEvent now e = .ok none) :
    scanEvents pred now (pre ++ rest) = scanEvents pred now rest := by
  induction pre with
  | nil => rfl
  | cons e es ih =>
    have ih' := ih (fun x hx hp => hpre x (List.mem_cons_of_mem e hx) hp)
    cases hp : pred e with
    | false => simp [scanEvents, hp, ih']
    | true =>
      have := hpre e (List.mem_cons_self e es) hp
      simp [scanEvents, hp, this, ih']

lemma scanEvents_found (pred : StopEvent → Bool) (now : Int)
    (ev : StopEvent) (rest : List StopEvent) (p : ParsedEvent)
    (hp : pred ev = true) (hparse : parseEvent now ev = .ok (some p)) :
    scanEvents pred now (ev :: rest) = .ok (some p) := by
  simp [scanEvents, hp, hparse]

lemma scanEvents_pred_false (pred : StopEvent → Bool) (now : Int)
    (l : List StopEvent) (h : ∀ e ∈ l, pred e = false) :
    scanEvents pred now l = .ok none := by
  induction l with
  | nil => rfl
  | cons e es ih =>
    have := h e (List.mem_cons_self e es)
    simp [scanEvents, this, ih (fun x hx => h x (List.mem_cons_of_mem e hx))]

lemma get_due_add (now d : Int) :
    get_due now (now + d) = roundHalfEvenDiv60 (d % 86400) := by
  simp only [get_due]
  rw [show now + d - now = d by ring]

/-- C2: if the HTTP request raises a transport-level error or completes
with a status code other than 200, both get_departures and get_trip return
exactly the sentinel record (every field 'n/a'), regardless of the other
arguments. -/
theorem claim_C2_http_failure_sentinel
    (sid o d : String) (r dest : Option String) (now : Int) (s : Nat)
    (db : DepBody) (tb : TripBody) (hs : s ≠ 200) :
    get_departures sid r dest now .transportError = .ok sentinelInfo ∧
    get_departures sid r dest now (.response s db) = .ok sentinelInfo ∧
    get_trip o d now .transportError = .ok sentinelInfo ∧
    get_trip o d now (.response s tb) = .ok sentinelInfo := by
  refine ⟨rfl, ?_, rfl, ?_⟩ <;> simp [get_departures, get_trip, hs]

/-- Witness for C2: a 404 departure response and a 500 trip response both
yield the sentinel record. -/
theorem claim_C2_witness :
    get_departures "209325" none none 0 (.response 404 ⟨none⟩) = .ok sentinelInfo ∧
    get_trip "209325" "200060" 0 (.response 500 ⟨none⟩) = .ok sentinelInfo :=
  ⟨(claim_C2_http_failure_sentinel "209325" "209325" "200060" none none 0 404
      ⟨none⟩ ⟨none⟩ (by decide)).2.1,
   (claim_C2_http_failure_sentinel "209325" "209325" "200060" none none 0 500
      ⟨none⟩ ⟨none⟩ (by decide)).2.2.2⟩

/-- C4 counterexample: the claim asserts half-up rounding (estimated =
now+12min30s gives due 13, a 30-second difference gives 1); the code uses
Python's round, which is half-to-even: 750 seconds gives 12 and 30 seconds
gives 0. -/
theorem claim_C4_counterexample :
    get_due 0 750 = 12 ∧ get_due 0 30 = 0 := by decide

/-- C4 (amended): due equals (estimated − now) in whole seconds, divided
by 60 and rounded half-to-even (Python's round): now+12min30s gives 12,
29 seconds gives 0, 30 seconds gives 0, 90 seconds gives 2; get_trip's
due computation is identical. -/
theorem claim_C4_due_rounds_half_to_even (now : Int) :
    get_due now (now + 750) = 12 ∧ get_due now (now + 29) = 0 ∧
    get_due now (now + 30) = 0 ∧ get_due now (now + 90) = 2 ∧
    trip_due now (now + 750) = 12 := by
  refine ⟨?_, ?_, ?_, ?_, ?_⟩
  · rw [get_due_add]; decide
  · rw [get_due_add]; decide
  · rw [get_due_add]; decide
  · rw [get_due_add]; decide
  · show get_due now (now + 750) = 12
    rw [get_due_add]; decide

/-- C5 counterexample: in get_trip, an estimated departure 3 minutes
earlier than planned yields a delay of 1437 minutes (the timedelta's
seconds-within-a-day component of −180 seconds), not −3 as the claim
states. -/
theorem claim_C5_counterexample :
    get_trip "o" "d" 0 (.response 200 ⟨some [⟨[
      { originDepartureTimeEstimated := some (.valid 820),
        originDepartureTimePlanned := some (.valid 1000),
        originArrivalTimeEstimated := none, originArrivalTimePlanned := none,
        isRealtimeControlled := none, transportationName := "T1",
        productClass := 1 }]⟩]⟩) =
    .ok { stop_id := .vStr "o", route := .vStr "T1", due := .vInt 14,
          delay := .vInt 1437, real_time := .vStr "n/a",
          destination := .vStr "d", mode := .vStr "Train" } := rfl

/-- C5 (amended): get_departures' delay (via get_delay) is correctly
signed: +7 for 7 minutes late, −3 for 3 minutes early, 0 when on time;
get_trip's inline computation agrees for late and on-time events but
applies no sign handling, so 3 minutes early wraps to 1437. -/
theorem claim_C5_delay_sign (T : Int) :
    get_delay T (T + 420) = 7 ∧ get_delay T (T - 180) = -3 ∧
    get_delay T T = 0 ∧ trip_delay T (T + 420) = 7 ∧
    trip_delay T T = 0 ∧ trip_delay T (T - 180) = 1437 := by
  refine ⟨?_, ?_, ?_, ?_, ?_, ?_⟩
  · simp only [get_delay]
    rw [if_pos (by omega : T ≤ T + 420), show T + 420 - T = (420 : Int) by ring]
    decide
  · simp only [get_delay]
    rw [if_neg (by omega : ¬T ≤ T - 180), show T - (T - 180) = (180 : Int) by ring]
    decide
  · simp only [get_delay]
    rw [if_pos le_rfl, sub_self]
    decide
  · simp only [trip_delay]
    rw [show T + 420 - T = (420 : Int) by ring]
    decide
  · simp only [trip_delay]
    rw [sub_self]
    decide
  · simp only [trip_delay]
    rw [show T - 180 - T = (-180 : Int) by ring]
    decide

/-- C6 counterexample: for the unrecognized code 99 the mode table returns
Python None (an absent value), not an explicit 'unknown' marker string. -/
theorem claim_C6_counterexample : get_mode 99 = none := by decide

/-- C6 (amended): codes 1, 4, 5, 7, 9, 11 map to Train, Lightrail, Bus,
Coach, Ferry, Schoolbus; every other code maps to None (never the raw
integer, but an absent value rather than an 'unknown' marker string). -/
theorem claim_C6_mode_table (c : Int)
    (h1 : c ≠ 1) (h4 : c ≠ 4) (h5 : c ≠ 5) (h7 : c ≠ 7) (h9 : c ≠ 9)
    (h11 : c ≠ 11) :
    get_mode 1 = some "Train" ∧ get_mode 4 = some "Lightrail" ∧
    get_mode 5 = some "Bus" ∧ get_mode 7 = some "Coach" ∧
    get_mode 9 = some "Ferry" ∧ get_mode 11 = some "Schoolbus" ∧
    get_mode c = none := by
  refine ⟨by decide, by decide, by decide, by decide, by decide, by decide, ?_⟩
  simp [get_mode, h1, h4, h5, h7, h9, h11]

/-- Witness for C6: code 2 (an unrecognized code) maps to None. -/
theorem claim_C6_witness : get_mode 2 = none :=
  (claim_C6_mode_table 2 (by decide) (by decide) (by decide) (by decide)
    (by decide) (by decide)).2.2.2.2.2.2

/-- C8: with both filters left at their defaults (None), the guard
`destination != ''` sends the call into the destination branch, where no
event's name equals None, so the sentinel is returned instead of the first
future event's record; passing both filters as '' reaches the unfiltered
branch, whose bare `parseEvent` reference is unbound at module level and
raises NameError. The event below is future-dated and would be selected
under the claimed behaviour. -/
theorem claim_C8_no_filter_divergence :
    get_departures "209325" none none 0 (.response 200 ⟨some [
      { number := "T1", destinationName := "Gordon", productClass := 1,
        isRealtimeControlled := false, departureTimePlanned := .valid 600,
        departureTimeEstimated := none }]⟩) = .ok sentinelInfo ∧
    get_departures "209325" (some "") (some "") 0 (.response 200 ⟨some [
      { number := "T1", destinationName := "Gordon", productClass := 1,
        isRealtimeControlled := false, departureTimePlanned := .valid 600,
        departureTimeEstimated := none }]⟩) = .error .nameError :=
  ⟨rfl, rfl⟩

/-- C3: with a non-empty destination filter, get_departures builds its
result from the first event in service order whose destination name equals
the filter exactly and whose estimated departure is strictly in the
future; earlier events that do not match, or that match but are not in the
future, are skipped and scanning continues. -/
theorem claim_C3_destination_filter (sid ds : String) (r : Option String)
    (now pl es : Int) (pre post : List StopEvent) (ev : StopEvent)
    (hds : ds ≠ "")
    (hpre : ∀ e ∈ pre, e.destinationName = ds →
        ∃ pl' es', EventTimes e pl' es' ∧ es' ≤ now)
    (hmatch : ev.destinationName = ds)
    (hev : EventTimes ev pl es)
    (hfut : now < es) :
    get_departures sid r (some ds) now
        (.response 200 ⟨some (pre ++ ev :: post)⟩) =
      .ok { stop_id := .vStr sid, route := .vStr ev.number,
            due := .vInt (get_due now es), delay := .vInt (get_delay pl es),
            real_time := .vStr (if ev.isRealtimeControlled then "y" else "n"),
            destination := .vStr ds,
            mode := pyValOfMode (get_mode ev.productClass) } := by
  have hpred : ∀ e ∈ pre, (ds == e.destinationName) = true →
      parseEvent now e = .ok none := by
    intro e he hp
    simp only [beq_iff_eq] at hp
    obtain ⟨pl', es', ht, hle⟩ := hpre e he hp.symm
    exact parseEvent_ok_none now pl' es' e ht hle
  have hscan : scanEvents (fun e => ds == e.destinationName)
      now (pre ++ ev :: post) = .ok (some
      { number := ev.number, due := get_due now es, delay := get_delay pl es,
        planned := pl, estimated := es,
        real_time := if ev.isRealtimeControlled then "y" else "n",
        destinationName := ev.destinationName,
        mode := get_mode ev.productClass }) := by
    rw [scanEvents_skip _ _ _ _ hpred]
    exact scanEvents_found _ _ _ _ _ (by simp [hmatch])
      (parseEvent_ok_some now pl es ev hev hfut)
  simp [get_departures, hds, hscan, infoOfParsed, hmatch]

/-- Witness for C3: three events, the first bound elsewhere, the second
matching "Gordon" with a future estimated time; the result reflects the
second event (route T1, realtime, due 12, delay 0, Train). -/
theorem claim_C3_witness :
    get_departures "209325" none (some "Gordon") 0 (.response 200 ⟨some
      [{ number := "100", destinationName := "Central", productClass := 5,
         isRealtimeControlled := false, departureTimePlanned := .valid 300,
         departureTimeEstimated := none },
       { number := "T1", destinationName := "Gordon", productClass := 1,
         isRealtimeControlled := true, departureTimePlanned := .valid 720,
         departureTimeEstimated := some (.valid 750) },
       { number := "T9", destinationName := "Gordon", productClass := 1,
         isRealtimeControlled := false, departureTimePlanned := .valid 900,
         departureTimeEstimated := none }]⟩) =
      .ok { stop_id := .vStr "209325", route := .vStr "T1",
            due := .vInt 12, delay := .vInt 0, real_time := .vStr "y",
            destination := .vStr "Gordon", mode := .vStr "Train" } := by
  have h := claim_C3_destination_filter "209325" "Gordon" none 0 720 750
    [{ number := "100", destinationName := "Central", productClass := 5,
       isRealtimeControlled := false, departureTimePlanned := .valid 300,
       departureTimeEstimated := none }]
    [{ number := "T9", destinationName := "Gordon", productClass := 1,
       isRealtimeControlled := false, departureTimePlanned := .valid 900,
       departureTimeEstimated := none }]
    { number := "T1", destinationName := "Gordon", productClass := 1,
      isRealtimeControlled := true, departureTimePlanned := .valid 720,
      departureTimeEstimated := some (.valid 750) }
    (by decide)
    (by intro e he hc
        simp only [List.mem_singleton] at he
        subst he
        exact absurd hc (by decide))
    rfl ⟨rfl, rfl⟩ (by decide)
  exact h

/-- C7 counterexample: a route filter with destination left at its default
(None) returns the sentinel record even though a future event with the
matching route number is first in the list, because `None != ''` sends the
call into the destination branch where no event name equals None. -/
theorem claim_C7_counterexample :
    get_departures "209325" (some "891") none 0 (.response 200 ⟨some
      [{ number := "891", destinationName := "City", productClass := 5,
         isRealtimeControlled := false, departureTimePlanned := .valid 540,
         departureTimeEstimated := none }]⟩) = .ok sentinelInfo := rfl

/-- C7 (amended): with destination left at its default None the
destination branch is taken and the result is the sentinel record for
every event list; the route branch runs only when destination is passed
as the empty string, and then the result is built from the first event in
service order whose route number equals the filter exactly and whose
estimated departure is in the future. -/
theorem claim_C7_route_filter (sid rt : String) (now pl es : Int)
    (pre post : List StopEvent) (ev : StopEvent)
    (hrt : rt ≠ "")
    (hpre : ∀ e ∈ pre, e.number = rt →
        ∃ pl' es', EventTimes e pl' es' ∧ es' ≤ now)
    (hmatch : ev.number = rt)
    (hev : EventTimes ev pl es)
    (hfut : now < es) :
    (∀ events : List StopEvent,
      get_departures sid (some rt) none now (.response 200 ⟨some events⟩) =
        .ok sentinelInfo) ∧
    get_departures sid (some rt) (some "") now
        (.response 200 ⟨some (pre ++ ev :: post)⟩) =
      .ok { stop_id := .vStr sid, route := .vStr rt,
            due := .vInt (get_due now es), delay := .vInt (get_delay pl es),
            real_time := .vStr (if ev.isRealtimeControlled then "y" else "n"),
            destination := .vStr ev.destinationName,
            mode := pyValOfMode (get_mode ev.productClass) } := by
  constructor
  · intro events
    have hnone : scanEvents (fun _ : StopEvent => false) now events = .ok none :=
      scanEvents_pred_false _ _ _ (fun e _ => rfl)
    simp [get_departures, hnone]
  · have hpred : ∀ e ∈ pre, (rt == e.number) = true →
        parseEvent now e = .ok none := by
      intro e he hp
      simp only [beq_iff_eq] at hp
      obtain ⟨pl', es', ht, hle⟩ := hpre e he hp.symm
      exact parseEvent_ok_none now pl' es' e ht hle
    have hscan : scanEvents (fun e => rt == e.number)
        now (pre ++ ev :: post) = .ok (some
        { number := ev.number, due := get_due now es,
          delay := get_delay pl es, planned := pl, estimated := es,
          real_time := if ev.isRealtimeControlled then "y" else "n",
          destinationName := ev.destinationName,
          mode := get_mode ev.productClass }) := by
      rw [scanEvents_skip _ _ _ _ hpred]
      exact scanEvents_found _ _ _ _ _ (by simp [hmatch])
        (parseEvent_ok_some now pl es ev hev hfut)
    simp [get_departures, hrt, hscan, infoOfParsed, hmatch]

/-- Witness for C7: route filter "891" with a non-matching bus first in
the list; with destination None the sentinel comes back, with destination
'' the 891 event's record comes back (due 9, delay 0, Bus). -/
theorem claim_C7_witness :
    get_departures "209325" (some "891") none 0 (.response 200 ⟨some
      [{ number := "700", destinationName := "QVB", productClass := 5,
         isRealtimeControlled := false, departureTimePlanned := .valid 60,
         departureTimeEstimated := none },
       { number := "891", destinationName := "City", productClass := 5,
         isRealtimeControlled := false, departureTimePlanned := .valid 540,
         departureTimeEstimated := none }]⟩) = .ok sentinelInfo ∧
    get_departures "209325" (some "891") (some "") 0 (.response 200 ⟨some
      [{ number := "700", destinationName := "QVB", productClass := 5,
         isRealtimeControlled := false, departureTimePlanned := .valid 60,
         departureTimeEstimated := none },
       { number := "891", destinationName := "City", productClass := 5,
         isRealtimeControlled := false, departureTimePlanned := .valid 540,
         departureTimeEstimated := none }]⟩) =
      .ok { stop_id := .vStr "209325", route := .vStr "891",
            due := .vInt 9, delay := .vInt 0, real_time := .vStr "n",
            destination := .vStr "City", mode := .vStr "Bus" } := by
  have h := claim_C7_route_filter "209325" "891" 0 540 540
    [{ number := "700", destinationName := "QVB", productClass := 5,
       isRealtimeControlled := false, departureTimePlanned := .valid 60,
       departureTimeEstimated := none }]
    []
    { number := "891", destinationName := "City", productClass := 5,
      isRealtimeControlled := false, departureTimePlanned := .valid 540,
      departureTimeEstimated := none }
    (by decide)
    (by intro e he hc
        simp only [List.mem_singleton] at he
        subst he
        exact absurd hc (by decide))
    rfl ⟨rfl, rfl⟩ (by decide)
  exact ⟨h.1 _, h.2⟩

/-- C9 counterexample: a response whose matching event carries a planned
timestamp the wire-format parser rejects makes get_departures raise
ValueError to the caller instead of returning the sentinel record. -/
theorem claim_C9_counterexample :
    get_departures "209325" none (some "Central") 0 (.response 200 ⟨some
      [{ number := "10", destinationName := "Central", productClass := 1,
         isRealtimeControlled := false, departureTimePlanned := .malformed,
         departureTimeEstimated := none }]⟩) = .error .valueError := rfl

/-- C9 (amended): a timestamp that fails to parse in the expected wire
format makes the affected operation raise the parse exception (ValueError)
to the caller; the sentinel record is not produced on that path. -/
theorem claim_C9_parse_error_escapes (sid ds o d : String) (r : Option String)
    (now : Int) (ev : StopEvent) (leg : TripLeg)
    (hds : ds ≠ "") (hmatch : ev.destinationName = ds)
    (hbad : ev.departureTimePlanned = .malformed)
    (hleg : leg.originDepartureTimeEstimated = some .malformed) :
    get_departures sid r (some ds) now (.response 200 ⟨some [ev]⟩) =
      .error .valueError ∧
    get_trip o d now (.response 200 ⟨some [⟨[leg]⟩]⟩) =
      .error .valueError := by
  constructor
  · have hscan : scanEvents (fun e => ds == e.destinationName) now [ev] =
        .error .valueError := by
      simp [scanEvents, hmatch, parseEvent, hbad, strptime]
    simp [get_departures, hds, hscan]
  · simp [get_trip, hleg, pyFromisoformat]

/-- Witness for C9: concrete calls with a malformed planned departure
timestamp and a malformed estimated trip timestamp both raise ValueError. -/
theorem claim_C9_witness :
    get_departures "209325" none (some "Museum") 0 (.response 200 ⟨some
      [{ number := "10", destinationName := "Museum", productClass := 1,
         isRealtimeControlled := false, departureTimePlanned := .malformed,
         departureTimeEstimated := none }]⟩) = .error .valueError ∧
    get_trip "209325" "200060" 0 (.response 200 ⟨some
      [⟨[{ originDepartureTimeEstimated := some .malformed,
           originDepartureTimePlanned := some (.valid 540),
           originArrivalTimeEstimated := none,
           originArrivalTimePlanned := none,
           isRealtimeControlled := none, transportationName := "T1",
           productClass := 1 }]⟩]⟩) = .error .valueError :=
  claim_C9_parse_error_escapes "209325" "Museum" "209325" "200060" none 0
    { number := "10", destinationName := "Museum", productClass := 1,
      isRealtimeControlled := false, departureTimePlanned := .malformed,
      departureTimeEstimated := none }
    { originDepartureTimeEstimated := some .malformed,
      originDepartureTimePlanned := some (.valid 540),
      originArrivalTimeEstimated := none, originArrivalTimePlanned := none,
      isRealtimeControlled := none, transportationName := "T1",
      productClass := 1 }
    (by decide) rfl rfl rfl

/-- C10: for a strictly future estimated time, due equals the half-to-even
rounding of the seconds-within-a-day component of (estimated − now)
divided by 60, lies between 0 and 1440 inclusive, and is unchanged by
shifting the estimated time a whole day (only the remainder is reported);
get_trip's due uses the same computation, and its delay uses the same
day-discarding component of (estimated − planned). -/
theorem claim_C10_due_day_component (now est planned : Int) (h : now < est) :
    get_due now est = roundHalfEvenDiv60 ((est - now) % 86400) ∧
    0 ≤ get_due now est ∧ get_due now est ≤ 1440 ∧
    get_due now (est + 86400) = get_due now est ∧
    trip_due now est = get_due now est ∧
    trip_delay planned est = roundHalfEvenDiv60 ((est - planned) % 86400) := by
  refine ⟨rfl, ?_, ?_, ?_, rfl, rfl⟩
  · simp only [get_due, roundHalfEvenDiv60]
    split_ifs <;> omega
  · simp only [get_due, roundHalfEvenDiv60]
    split_ifs <;> omega
  · have hmod : (est + 86400 - now) % 86400 = (est - now) % 86400 := by omega
    simp only [get_due, hmod]

/-- Witness for C10 at now = 0, estimated = 750, planned = 720. -/
theorem claim_C10_witness :
    get_due 0 750 = roundHalfEvenDiv60 (750 % 86400) ∧
    0 ≤ get_due 0 750 ∧ get_due 0 750 ≤ 1440 ∧
    get_due 0 (750 + 86400) = get_due 0 750 ∧
    trip_due 0 750 = get_due 0 750 ∧
    trip_delay 720 750 = roundHalfEvenDiv60 ((750 - 720) % 86400) := by
  have h := claim_C10_due_day_component 0 750 720 (by decide)
  simpa using h

/-- C1 counterexample: a 200-status trip response whose single leg has the
unrecognized mode code 99 makes get_trip raise TypeError (joining the
Python None produced by the mode table), instead of returning a record. -/
theorem claim_C1_counterexample :
    get_trip "209325" "200060" 0 (.response 200 ⟨some [⟨[
      { originDepartureTimeEstimated := some (.valid 900),
        originDepartureTimePlanned := some (.valid 900),
        originArrivalTimeEstimated := none, originArrivalTimePlanned := none,
        isRealtimeControlled := some true, transportationName := "Xpt",
        productClass := 99 }]⟩]⟩) = .error .typeError := rfl

/-- C1 (amended): both operations return the fully populated sentinel
record on every handled failure path (transport error, non-200 status),
but the no-exception contract is not total: get_trip raises TypeError
whenever the journey's legs include a mode code outside the fixed table,
even though its timestamps parse. -/
theorem claim_C1_totality_amended (sid o d : String) (r dest : Option String)
    (now t t2 : Int) (s : Nat) (db : DepBody) (tb : TripBody) (leg : TripLeg)
    (hs : s ≠ 200)
    (ht : leg.originDepartureTimeEstimated = some (.valid t))
    (hp2 : leg.originDepartureTimePlanned = some (.valid t2))
    (hmode : get_mode leg.productClass = none) :
    get_departures sid r dest now .transportError = .ok sentinelInfo ∧
    get_trip o d now .transportError = .ok sentinelInfo ∧
    get_departures sid r dest now (.response s db) = .ok sentinelInfo ∧
    get_trip o d now (.response s tb) = .ok sentinelInfo ∧
    get_trip o d now (.response 200 ⟨some [⟨[leg]⟩]⟩) = .error .typeError := by
  refine ⟨rfl, rfl, ?_, ?_, ?_⟩
  · simp [get_departures, hs]
  · simp [get_trip, hs]
  · simp [get_trip, ht, hp2, pyFromisoformat, joinTripModes, hmode]

/-- Witness for C1: a 403 response yields the sentinel from both
operations, and a trip whose leg has mode code 3 raises TypeError. -/
theorem claim_C1_witness :
    get_departures "209325" none none 0 .transportError = .ok sentinelInfo ∧
    get_trip "209325" "200060" 0 .transportError = .ok sentinelInfo ∧
    get_departures "209325" none none 0 (.response 403 ⟨none⟩) =
      .ok sentinelInfo ∧
    get_trip "209325" "200060" 0 (.response 403 ⟨none⟩) = .ok sentinelInfo ∧
    get_trip "209325" "200060" 0 (.response 200 ⟨some [⟨[
      { originDepartureTimeEstimated := some (.valid 120),
        originDepartureTimePlanned := some (.valid 60),
        originArrivalTimeEstimated := none, originArrivalTimePlanned := none,
        isRealtimeControlled := none, transportationName := "X",
        productClass := 3 }]⟩]⟩) = .error .typeError :=
  claim_C1_totality_amended "209325" "209325" "200060" none none 0 120 60 403
    ⟨none⟩ ⟨none⟩
    { originDepartureTimeEstimated := some (.valid 120),
      originDepartureTimePlanned := some (.valid 60),
      originArrivalTimeEstimated := none, originArrivalTimePlanned := none,
      isRealtimeControlled := none, transportationName := "X",
      productClass := 3 }
    (by decide) rfl rfl (by decide)
